import Mathlib

/-!
Shallow embedding of the Hands-on-LLMOps-Project repository:
the batch data pipeline (data_pipeline/process_data.py) and the query
service (model_service/main.py).  Pure control flow is translated to
Lean functions; interactions with external services (S3, DynamoDB, the
text-generation pipeline) are modelled as explicit inputs and as lists
of observable effects (uploads performed, items put).
-/

namespace LLMOps

/-- Python truthiness of an optional string: `os.getenv` returns `None`
when the variable is unset, and both `None` and the empty string are
falsy in Python (`if not X`). -/
def pyTruthy : Option String → Bool
  | none => false
  | some s => s ≠ ""

/-! ### model_service/main.py : request and response shapes -/

/-- `HTTPException(status_code=..., detail=...)` raised by handlers. -/
structure HTTPError where
  status_code : Nat
  detail : String
deriving DecidableEq, Repr

/-- Body of `POST /chat` (pydantic model `ChatRequest`). -/
structure ChatRequest where
  query : String
deriving DecidableEq, Repr

/-- Body returned by `POST /chat` (pydantic model `ChatResponse`). -/
structure ChatResponse where
  answer : String
  query_id : String
deriving DecidableEq, Repr

/-- Body of `POST /feedback` (pydantic model `FeedbackRequest`). -/
structure FeedbackRequest where
  query_id : String
  query : String
  answer : String
  is_correct : Bool
deriving DecidableEq, Repr

/-- Body returned by `POST /feedback`: the dict with key `status`. -/
structure FeedbackAck where
  status : String
deriving DecidableEq, Repr

/-- Body returned by `GET /health`: the dict with key `status`. -/
structure HealthResponse where
  status : String
deriving DecidableEq, Repr

/-- The item written by `table.put_item(Item=req.dict())`: exactly the
four fields of the `FeedbackRequest`. -/
structure FeedbackItem where
  query_id : String
  query : String
  answer : String
  is_correct : Bool
deriving DecidableEq, Repr

/-- The global mutable service state: `qa_chain` and `tokenizer` are
module-level globals starting as `None` and set by the startup hook.
The qa chain is the closure `simple_qa`; the tokenizer is modelled by
its `encode` method (a query to its list of token ids). -/
structure ServiceState where
  qa_chain : Option (String → String)
  tokenizer : Option (String → List Nat)

/-! ### model_service/main.py : handlers -/

/-- `GET /health`: returns the fixed dict, touching no state. -/
def health (_ : ServiceState) : HealthResponse :=
  { status := "healthy" }

/-- All observable effects of one `POST /chat` call: the HTTP outcome,
whether the qa chain (retrieval plus generation) was invoked, and the
amounts added to the two Prometheus token counters. -/
structure ChatEffects where
  response : Except HTTPError ChatResponse
  qaInvoked : Bool
  promptTokensInc : Nat
  completionTokensInc : Nat

/-- `POST /chat`.  Checks `if not qa_chain or not tokenizer` (both are
`None` until startup completes; once set they are a function object and
a tokenizer object, never falsy), raising 503 before any retrieval or
generation; otherwise counts prompt tokens, invokes the qa chain, counts
completion tokens and answers with a fresh uuid. -/
def chat (st : ServiceState) (freshId : String) (req : ChatRequest) : ChatEffects :=
  match st.qa_chain, st.tokenizer with
  | some qa, some tok =>
    let result := qa req.query
    { response := Except.ok { answer := result, query_id := freshId }
      qaInvoked := true
      promptTokensInc := (tok req.query).length
      completionTokensInc := (tok result).length }
  | _, _ =>
    { response := Except.error { status_code := 503, detail := "Service initializing" }
      qaInvoked := false
      promptTokensInc := 0
      completionTokensInc := 0 }

/-- `POST /feedback`.  `DYNAMODB_TABLE = os.getenv("DYNAMODB_FEEDBACK_TABLE")`
is the first argument; `if not DYNAMODB_TABLE` raises 500 (both for the
unset variable and for the empty string, which is falsy in Python);
otherwise one item is put into the named table.  The second component
collects the put calls performed: pairs of table name and item. -/
def feedback (tbl : Option String) (req : FeedbackRequest) :
    Except HTTPError FeedbackAck × List (String × FeedbackItem) :=
  match tbl with
  | none => (Except.error { status_code := 500, detail := "DynamoDB table not configured" }, [])
  | some t =>
    if t = "" then
      (Except.error { status_code := 500, detail := "DynamoDB table not configured" }, [])
    else
      (Except.ok { status := "Feedback recorded" },
       [(t, { query_id := req.query_id, query := req.query,
              answer := req.answer, is_correct := req.is_correct })])

/-- `startup_event`.  First checks `if not S3_BUCKET: raise RuntimeError(...)`
(falsy for the unset variable and for the empty string); only then does it
build the tokenizer, download and load the index, and install the qa chain.
The loaded components are inputs since they come from external services;
on the error path the globals are left untouched, i.e. uninitialized. -/
def startup_event (bucket : Option String)
    (tok : String → List Nat) (qa : String → String) :
    Except String ServiceState :=
  if pyTruthy bucket = false then
    Except.error "S3_BUCKET_NAME env var is required"
  else
    Except.ok { qa_chain := some qa, tokenizer := some tok }

/-! ### model_service/main.py : route registrations -/

/-- The routes registered on the FastAPI app by this module, in source
order: `Instrumentator().instrument(app).expose(app)` registers the
metrics endpoint at its default path `GET /metrics`, then the three
decorated handlers follow. -/
def registeredRoutes : List (String × String) :=
  [("GET", "/metrics"), ("GET", "/health"), ("POST", "/chat"), ("POST", "/feedback")]

/-- The three endpoints the spec names as the whole HTTP surface. -/
def specSurface : List (String × String) :=
  [("GET", "/health"), ("POST", "/chat"), ("POST", "/feedback")]

/-! ### model_service/main.py : environment configuration -/

/-- Modelled from the spec: the spec lists an "optional API token" among
the environment variables, belonging to the hosted-model revision of the
web service, which is not present in this snapshot; the spec names no
concrete variable, so the model uses the placeholder name `API_TOKEN`. -/
def apiTokenVar : String := "API_TOKEN"

/-- The environment variables consulted by the web service configuration
block (lines 17 to 20 of model_service/main.py) together with the
spec-modelled API token variable. -/
def configVars : List String :=
  ["S3_BUCKET_NAME", "S3_FAISS_PREFIX", "DYNAMODB_FEEDBACK_TABLE", apiTokenVar]

/-- The configuration the web service reads at import time.  `s3Bucket`
and `dynamoTable` are plain `os.getenv` calls (None when unset);
`s3FaissKeyPfx` models `S3_FAISS_PREFIX = os.getenv("S3_FAISS_PREFIX",
"faiss_index")` with its default; `apiToken` is the spec-modelled
optional token. -/
structure ServiceConfig where
  s3Bucket : Option String
  s3FaissKeyPfx : String
  dynamoTable : Option String
  apiToken : Option String
deriving DecidableEq, Repr

/-- Reading the configuration from an environment, modelled as a partial
map from variable names to values. -/
def loadServiceConfig (env : String → Option String) : ServiceConfig :=
  { s3Bucket := env "S3_BUCKET_NAME"
    s3FaissKeyPfx := (env "S3_FAISS_PREFIX").getD "faiss_index"
    dynamoTable := env "DYNAMODB_FEEDBACK_TABLE"
    apiToken := env apiTokenVar }

/-! ### model_service/main.py : LocalLLM -/

/-- The string returned from the `except` clause of `LocalLLM.__call__`. -/
def fallbackMessage : String :=
  "I can help you with your question. Please provide more details."

/-- The default returned when the cleaned generation is empty. -/
def defaultMessage : String :=
  "I understand your question. Let me help you with that."

/-- Python `str.strip()` on a list of characters: drop whitespace from
both ends. -/
def pyStripL (l : List Char) : List Char :=
  ((l.dropWhile Char.isWhitespace).reverse.dropWhile Char.isWhitespace).reverse

/-- Python `str.strip()`. -/
def pyStrip (s : String) : String :=
  String.mk (pyStripL s.data)

/-- The post-processing of the raw generated text inside the `try` block
of `LocalLLM.__call__`: remove the echoed prompt and strip, then return
the first 200 characters, or the default when the cleaned text is empty
(Python `generated_text[:200] if generated_text else ...`). -/
def localLLMClean (prompt generated0 : String) : String :=
  let generated :=
    if generated0.startsWith prompt then pyStrip (generated0.drop prompt.length)
    else generated0
  if generated ≠ "" then generated.take 200 else defaultMessage

/-- `LocalLLM.__call__`.  The text-generation pipeline is modelled as an
oracle giving, for each successive invocation index, either the raw
generated text or an exception; the body makes exactly one call (index
0).  A raised exception is caught and mapped to the fixed fallback. -/
def LocalLLM_call (gen : Nat → Except Unit String) (prompt : String) : String :=
  match gen 0 with
  | Except.error _ => fallbackMessage
  | Except.ok generated0 => localLLMClean prompt generated0

/-! ### data_pipeline/process_data.py -/

/-- A CSV cell: `none` models a pandas null. -/
abbrev Cell := Option String

/-- `df.dropna()` followed by `astype(str)`: keep only rows in which both
the question and the answer cell are non-null. -/
def dropna (rows : List (Cell × Cell)) : List (String × String) :=
  rows.filterMap fun r =>
    match r with
    | (some q, some a) => some (q, a)
    | _ => none

/-- One row of `df["question"] + " \nAnswer: " + df["answer"]`. -/
def rowText (q a : String) : String := q ++ " \nAnswer: " ++ a

/-- The list handed to `text_splitter.create_documents`: the per-row
concatenations of the null-free rows, stripped, with falsy (empty)
stripped texts discarded (`[text.strip() for text in texts if
text.strip()]`). -/
def splitterTexts (rows : List (Cell × Cell)) : List String :=
  ((dropna rows).map fun p => rowText p.1 p.2).filterMap fun t =>
    if pyStrip t = "" then none else some (pyStrip t)

/-- One `s3_client.upload_file(local_path, S3_BUCKET_NAME, s3_key)`
call: the object key and the local file it is uploaded from. -/
structure S3Upload where
  key : String
  localFile : String
deriving DecidableEq, Repr

/-- The uploads performed by the final loop of the pipeline: for each
entry of `os.listdir(LOCAL_FAISS_PATH)`, one upload with key
`f"{S3_FAISS_PREFIX}/{file_name}"`. -/
def s3UploadsFor (pfx : String) (files : List String) : List S3Upload :=
  files.map fun f => { key := pfx ++ "/" ++ f, localFile := f }

/-- The pipeline `main` after the CSV load, abstracted over the external
steps: `chunkDocs` models `text_splitter.create_documents`, and
`indexFiles` models building the FAISS index, saving it locally and
listing the resulting directory.  If no text survives the dropna and
emptiness filter a `ValueError` is raised before any of those steps;
otherwise the index files are mirrored to S3. -/
def pipelineMain (rows : List (Cell × Cell))
    (chunkDocs : List String → List String)
    (indexFiles : List String → List String)
    (pfx : String) : Except String (List S3Upload) :=
  let texts := splitterTexts rows
  if texts = [] then
    Except.error "No valid text data found after processing CSV file"
  else
    Except.ok (s3UploadsFor pfx (indexFiles (chunkDocs texts)))

/-- The objects written to storage by a pipeline run: none when it
terminated with an error. -/
def uploadsOf : Except String (List S3Upload) → List S3Upload
  | Except.error _ => []
  | Except.ok us => us

/-! ### Helper lemmas -/

/-- `dropWhile` keeps every element on which the predicate fails. -/
lemma exists_false_mem_dropWhile (p : Char → Bool) :
    ∀ l : List Char, (∃ c ∈ l, p c = false) → ∃ c ∈ l.dropWhile p, p c = false := by
  intro l h
  induction l with
  | nil => simp at h
  | cons a l ih =>
    by_cases hpa : p a = true
    · rw [List.dropWhile_cons, if_pos hpa]
      apply ih
      rcases h with ⟨c, hc, hpc⟩
      rcases List.mem_cons.mp hc with rfl | hcl
      · rw [hpa] at hpc; cases hpc
      · exact ⟨c, hcl, hpc⟩
    · rw [List.dropWhile_cons, if_neg hpa]
      exact h

/-- A character list holding any non-whitespace character strips to a
nonempty list. -/
lemma pyStripL_ne_nil (l : List Char) (h : ∃ c ∈ l, c.isWhitespace = false) :
    pyStripL l ≠ [] := by
  unfold pyStripL
  have h1 := exists_false_mem_dropWhile Char.isWhitespace l h
  have h2 : ∃ c ∈ (l.dropWhile Char.isWhitespace).reverse, c.isWhitespace = false := by
    rcases h1 with ⟨c, hc, hpc⟩
    exact ⟨c, List.mem_reverse.mpr hc, hpc⟩
  have h3 := exists_false_mem_dropWhile Char.isWhitespace _ h2
  rcases h3 with ⟨c, hc, _⟩
  intro hnil
  rw [List.reverse_eq_nil_iff] at hnil
  rw [hnil] at hc
  exact absurd hc (List.not_mem_nil c)

/-- Every concatenated row text contains the literal separator, so the
stripped text is never empty. -/
lemma pyStrip_rowText_ne (q a : String) : pyStrip (rowText q a) ≠ "" := by
  have hA : 'A' ∈ (rowText q a).data := by
    unfold rowText
    rw [String.data_append, String.data_append]
    refine List.mem_append.mpr (Or.inl (List.mem_append.mpr (Or.inr ?_)))
    decide
  have hne := pyStripL_ne_nil (rowText q a).data ⟨'A', hA, by decide⟩
  intro hempty
  apply hne
  have hdata : (pyStrip (rowText q a)).data = ("" : String).data := by rw [hempty]
  simpa [pyStrip] using hdata

/-- The list comprehension filter removes nothing when every stripped
entry is nonempty. -/
lemma filterMap_strip_of_ne (l : List String) (h : ∀ t ∈ l, pyStrip t ≠ "") :
    (l.filterMap fun t => if pyStrip t = "" then none else some (pyStrip t)) = l.map pyStrip := by
  induction l with
  | nil => rfl
  | cons a l ih =>
    have ha : pyStrip a ≠ "" := h a (List.mem_cons_self a l)
    simp only [List.filterMap_cons, List.map_cons, if_neg ha]
    rw [ih fun t ht => h t (List.mem_cons_of_mem a ht)]

/-! ### Claim theorems -/

/-- C1 counterexample: the claim says a set feedback-table variable leads
to one item being written, but the handler tests Python truthiness, so
the variable set to the empty string (which is set, not unset) still
yields the HTTP 500 configuration error and writes nothing. -/
theorem feedback_empty_table_rejected :
    (some "" ≠ (none : Option String)) ∧
    feedback (some "") { query_id := "id1", query := "q1", answer := "a1", is_correct := true } =
      (Except.error { status_code := 500, detail := "DynamoDB table not configured" }, []) :=
  ⟨by decide, rfl⟩

/-- C1 amended: if the feedback-table variable is unset or set to the
empty string, `POST /feedback` returns the HTTP 500 configuration error
and writes no item; if it is set to a nonempty name, the handler writes
exactly one item made of the four request fields into that table and
returns the acknowledgement. -/
theorem feedback_table_check (tbl : Option String) (req : FeedbackRequest) :
    ((tbl = none ∨ tbl = some "") →
      feedback tbl req =
        (Except.error { status_code := 500, detail := "DynamoDB table not configured" }, [])) ∧
    (∀ t, tbl = some t → t ≠ "" →
      feedback tbl req =
        (Except.ok { status := "Feedback recorded" },
         [(t, { query_id := req.query_id, query := req.query,
                answer := req.answer, is_correct := req.is_correct })])) := by
  constructor
  · rintro (rfl | rfl) <;> simp [feedback]
  · rintro t rfl ht
    simp [feedback, ht]

/-- Witness for C1 amended at both a missing table and a concrete table. -/
theorem feedback_table_check_witness :
    feedback none { query_id := "i", query := "q", answer := "a", is_correct := true } =
      (Except.error { status_code := 500, detail := "DynamoDB table not configured" }, []) ∧
    feedback (some "fb") { query_id := "i", query := "q", answer := "a", is_correct := true } =
      (Except.ok { status := "Feedback recorded" },
       [("fb", { query_id := "i", query := "q", answer := "a", is_correct := true })]) :=
  ⟨(feedback_table_check none _).1 (Or.inl rfl),
   (feedback_table_check (some "fb") _).2 "fb" rfl (by decide)⟩

/-- C2: while `qa_chain` or `tokenizer` is still `None`, `POST /chat`
answers with HTTP 503 and neither invokes the qa chain (retrieval plus
generation) nor counts any tokens. -/
theorem chat_unavailable_before_init (st : ServiceState) (freshId : String)
    (req : ChatRequest) (h : st.qa_chain = none ∨ st.tokenizer = none) :
    (chat st freshId req).response =
      Except.error { status_code := 503, detail := "Service initializing" } ∧
    (chat st freshId req).qaInvoked = false ∧
    (chat st freshId req).promptTokensInc = 0 ∧
    (chat st freshId req).completionTokensInc = 0 := by
  obtain ⟨qc, tk⟩ := st
  cases qc <;> cases tk <;> simp_all [chat]

/-- Witness for C2 at the state in which startup has not run. -/
theorem chat_unavailable_before_init_witness :
    (chat { qa_chain := none, tokenizer := none } "id0" { query := "hi" }).response =
      Except.error { status_code := 503, detail := "Service initializing" } ∧
    (chat { qa_chain := none, tokenizer := none } "id0" { query := "hi" }).qaInvoked = false ∧
    (chat { qa_chain := none, tokenizer := none } "id0" { query := "hi" }).promptTokensInc = 0 ∧
    (chat { qa_chain := none, tokenizer := none } "id0" { query := "hi" }).completionTokensInc = 0 :=
  chat_unavailable_before_init { qa_chain := none, tokenizer := none } "id0" { query := "hi" }
    (Or.inl rfl)

/-- C3 counterexample: the claim says startup proceeds past the bucket
check whenever the variable is set, but with the variable set to the
empty string (set, not absent) the handler still raises the fatal
RuntimeError, because the check is Python truthiness. -/
theorem startup_event_empty_bucket_raises :
    (some "" ≠ (none : Option String)) ∧
    startup_event (some "") (fun _ => []) (fun q => q) =
      Except.error "S3_BUCKET_NAME env var is required" :=
  ⟨by decide, rfl⟩

/-- C3 amended: startup raises the fatal RuntimeError, leaving the
service uninitialized, whenever the bucket variable is absent or set to
the empty string; whenever it is set to a nonempty value, startup
proceeds past the check and installs the qa chain and the tokenizer. -/
theorem startup_event_bucket_check (bucket : Option String)
    (tok : String → List Nat) (qa : String → String) :
    ((bucket = none ∨ bucket = some "") →
      startup_event bucket tok qa = Except.error "S3_BUCKET_NAME env var is required") ∧
    (∀ s, bucket = some s → s ≠ "" →
      startup_event bucket tok qa = Except.ok { qa_chain := some qa, tokenizer := some tok }) := by
  constructor
  · rintro (rfl | rfl) <;> simp [startup_event, pyTruthy]
  · rintro s rfl hs
    simp [startup_event, pyTruthy, hs]

/-- Witness for C3 amended at an absent bucket and at a nonempty one. -/
theorem startup_event_bucket_check_witness :
    startup_event none (fun _ => []) (fun q => q) =
      Except.error "S3_BUCKET_NAME env var is required" ∧
    startup_event (some "bkt") (fun _ => []) (fun q => q) =
      Except.ok { qa_chain := some (fun q => q), tokenizer := some (fun _ => []) } :=
  ⟨(startup_event_bucket_check none (fun _ => []) (fun q => q)).1 (Or.inl rfl),
   (startup_event_bucket_check (some "bkt") (fun _ => []) (fun q => q)).2 "bkt" rfl (by decide)⟩

/-- C4 counterexample: besides the three documented endpoints, the module
also registers the Prometheus metrics endpoint `GET /metrics` through
`Instrumentator().instrument(app).expose(app)`, so the surface is not
exactly the three routes. -/
theorem metrics_route_registered :
    ("GET", "/metrics") ∈ registeredRoutes ∧ ("GET", "/metrics") ∉ specSurface := by
  constructor
  · simp [registeredRoutes]
  · simp [specSurface]

/-- C4 amended: the three documented endpoints are all registered, and
the only further route registered by the module is the Prometheus
metrics endpoint `GET /metrics`. -/
theorem registered_routes_surface :
    (∀ r ∈ specSurface, r ∈ registeredRoutes) ∧
    (∀ r ∈ registeredRoutes, r ∈ specSurface ∨ r = ("GET", "/metrics")) := by
  constructor
  · intro r hr
    simp only [specSurface, List.mem_cons, List.not_mem_nil, or_false] at hr
    rcases hr with rfl | rfl | rfl <;> simp [registeredRoutes]
  · intro r hr
    simp only [registeredRoutes, List.mem_cons, List.not_mem_nil, or_false] at hr
    rcases hr with rfl | rfl | rfl | rfl <;> simp [specSurface]

/-- C5 counterexample: a row containing a null is dropped by
`df.dropna()` before concatenation, so the list passed to the splitter
does not have one entry for that input row. -/
theorem splitterTexts_drops_null_row :
    (splitterTexts [((none : Cell), (some "a" : Cell))]).length = 0 ∧
    ([((none : Cell), (some "a" : Cell))] : List (Cell × Cell)).length = 1 :=
  ⟨rfl, rfl⟩

/-- C5 amended: for every row surviving the null drop, the pipeline
concatenates the question and the answer into exactly one text unit (the
stripped concatenation; the emptiness filter removes none of them, since
every concatenated text contains the non-whitespace separator), so the
list passed to the splitter has one entry per null-free input row. -/
theorem splitterTexts_per_row (rows : List (Cell × Cell)) :
    splitterTexts rows = (dropna rows).map (fun p => pyStrip (rowText p.1 p.2)) ∧
    (splitterTexts rows).length = (dropna rows).length := by
  have heq : splitterTexts rows = ((dropna rows).map fun p => rowText p.1 p.2).map pyStrip := by
    unfold splitterTexts
    apply filterMap_strip_of_ne
    intro t ht
    rcases List.mem_map.mp ht with ⟨p, _, rfl⟩
    exact pyStrip_rowText_ne p.1 p.2
  refine ⟨?_, ?_⟩
  · rw [heq, List.map_map]
    rfl
  · rw [heq]
    simp

/-- C6: the upload loop mirrors the local index directory file-for-file:
each uploaded object has key equal to the configured key path followed by
a slash and the file name, every listed file is uploaded exactly once,
and no other object is uploaded. -/
theorem s3Uploads_mirror (pfx : String) (files : List String) (hnd : files.Nodup) :
    (s3UploadsFor pfx files).length = files.length ∧
    (∀ f ∈ files, S3Upload.mk (pfx ++ "/" ++ f) f ∈ s3UploadsFor pfx files) ∧
    (∀ u ∈ s3UploadsFor pfx files, ∃ f ∈ files, u = S3Upload.mk (pfx ++ "/" ++ f) f) ∧
    (∀ f ∈ files, (s3UploadsFor pfx files).count (S3Upload.mk (pfx ++ "/" ++ f) f) = 1) := by
  refine ⟨by simp [s3UploadsFor], ?_, ?_, ?_⟩
  · intro f hf
    exact List.mem_map_of_mem _ hf
  · intro u hu
    rcases List.mem_map.mp hu with ⟨f, hf, rfl⟩
    exact ⟨f, hf, rfl⟩
  · intro f hf
    have hinj : Function.Injective fun f => S3Upload.mk (pfx ++ "/" ++ f) f := by
      intro a b hab
      simpa using congrArg S3Upload.localFile hab
    have hnd2 : (s3UploadsFor pfx files).Nodup := hnd.map hinj
    exact List.count_eq_one_of_mem hnd2 (List.mem_map_of_mem _ hf)

/-- Witness for C6 at a concrete two-file index directory. -/
theorem s3Uploads_mirror_witness :
    (s3UploadsFor "faiss_index" ["index.faiss", "index.pkl"]).length = 2 :=
  (s3Uploads_mirror "faiss_index" ["index.faiss", "index.pkl"] (by decide)).1.trans rfl

/-- C7: when the underlying text-generation call raises, the wrapper
returns the fixed generic fallback string, whatever the prompt; and the
wrapper consults only the first generator invocation, so no retry ever
happens (two generators agreeing on their first answer give identical
results). -/
theorem localLLM_call_fallback (gen gen2 : Nat → Except Unit String) (prompt : String)
    (hagree : gen 0 = gen2 0) :
    (gen 0 = Except.error () → LocalLLM_call gen prompt = fallbackMessage) ∧
    LocalLLM_call gen prompt = LocalLLM_call gen2 prompt := by
  constructor
  · intro h
    simp [LocalLLM_call, h]
  · simp [LocalLLM_call, hagree]

/-- Witness for C7 at a generator that always raises. -/
theorem localLLM_call_fallback_witness :
    LocalLLM_call (fun _ => Except.error ()) "any prompt" = fallbackMessage :=
  (localLLM_call_fallback (fun _ => Except.error ()) (fun _ => Except.error ())
    "any prompt" rfl).1 rfl

/-- C8: the service configuration depends only on the bucket-name,
key-path, feedback-table and (spec-modelled) API-token environment
variables; the first three are read from their named variables, the
key path defaulting when unset, and the token is optional (simply
absent from the configuration when unset). -/
theorem loadServiceConfig_reads_env (env env2 : String → Option String)
    (h : ∀ k ∈ configVars, env k = env2 k) :
    loadServiceConfig env = loadServiceConfig env2 ∧
    (loadServiceConfig env).s3Bucket = env "S3_BUCKET_NAME" ∧
    (loadServiceConfig env).s3FaissKeyPfx = (env "S3_FAISS_PREFIX").getD "faiss_index" ∧
    (loadServiceConfig env).dynamoTable = env "DYNAMODB_FEEDBACK_TABLE" ∧
    (loadServiceConfig env).apiToken = env apiTokenVar := by
  have h1 := h "S3_BUCKET_NAME" (by simp [configVars])
  have h2 := h "S3_FAISS_PREFIX" (by simp [configVars])
  have h3 := h "DYNAMODB_FEEDBACK_TABLE" (by simp [configVars])
  have h4 := h apiTokenVar (by simp [configVars])
  refine ⟨?_, rfl, rfl, rfl, rfl⟩
  simp [loadServiceConfig, h1, h2, h3, h4]

/-- Witness for C8 at a concrete environment. -/
theorem loadServiceConfig_reads_env_witness :
    (loadServiceConfig fun k => if k = "S3_BUCKET_NAME" then some "bkt" else none).s3Bucket =
      some "bkt" := by
  have h := (loadServiceConfig_reads_env
    (fun k => if k = "S3_BUCKET_NAME" then some "bkt" else none)
    (fun k => if k = "S3_BUCKET_NAME" then some "bkt" else none)
    (fun _ _ => rfl)).2.1
  simpa using h

/-- C9: `GET /health` returns the fixed healthy body in every service
state, initialized or not, performing no initialization check (its
result is the same as in the fully uninitialized state). -/
theorem health_always_healthy (st : ServiceState) :
    health st = { status := "healthy" } ∧
    health st = health { qa_chain := none, tokenizer := none } :=
  ⟨rfl, rfl⟩

/-- C10: when no text unit survives the null drop and the emptiness
filter, the pipeline terminates with the ValueError before chunking or
index construction (its outcome does not depend on them) and writes no
object to storage. -/
theorem pipeline_no_upload_when_empty (rows : List (Cell × Cell))
    (chunkDocs indexFiles chunkDocs2 indexFiles2 : List String → List String)
    (pfx : String) (h : splitterTexts rows = []) :
    pipelineMain rows chunkDocs indexFiles pfx =
      Except.error "No valid text data found after processing CSV file" ∧
    uploadsOf (pipelineMain rows chunkDocs indexFiles pfx) = [] ∧
    pipelineMain rows chunkDocs indexFiles pfx =
      pipelineMain rows chunkDocs2 indexFiles2 pfx := by
  refine ⟨?_, ?_, ?_⟩ <;> simp [pipelineMain, h, uploadsOf]

/-- Witness for C10 at the empty input table. -/
theorem pipeline_no_upload_when_empty_witness :
    pipelineMain [] id id "faiss_index" =
      Except.error "No valid text data found after processing CSV file" :=
  (pipeline_no_upload_when_empty [] id id id id "faiss_index" rfl).1

end LLMOps
